import Mathlib

/-!
# Verification of the dance-bounce-detector signal-processing core

Shallow embedding of the MotionAnalyzer pipeline of the repository
MisterFlask/dance-bounce-detector.  The main model follows
docs/bounce-detector.js (the three-axis variant with sensor and filter
gravity modes); the Kotlin port (BounceDetector.kt) coincides with it on
the embedded logic except where noted.  A second, smaller model in
namespace ZVariant follows the z-only variant src/bounce-detector.ts.

Conventions of the embedding:
* JavaScript numbers are modelled as exact rationals; timestamps as
  integers (milliseconds).
* Math.sqrt has no exact rational counterpart, so every definition that
  needs it takes an explicit function argument named rsqrt.  All theorems
  below are proved for an arbitrary rsqrt, hence they hold in particular
  for the real square root.  Divisions are total in the field of
  rationals; the theorems about the guard show that the code divides only
  when the guard value exceeds 1/10.
* Side effects (UI updates, listener callbacks, Web Audio parameter
  automation) are modelled as a list of emitted events per processed
  sample; reading oscillatorGainNode.gain.value (external renderer state)
  is modelled by the explicit argument named gain.
-/

/-- A three-axis vector of rationals (acceleration or gravity). -/
structure Vec3 where
  x : ℚ
  y : ℚ
  z : ℚ
deriving DecidableEq

/-- Dot product of two vectors. -/
def dot (a b : Vec3) : ℚ := a.x * b.x + a.y * b.y + a.z * b.z

/-- Math.abs on rationals, written executably (kernel-reducible), and
proved below to agree with the absolute value of the ordered field. -/
def qabs (q : ℚ) : ℚ := if q < 0 then -q else q

theorem qabs_eq_abs (q : ℚ) : qabs q = |q| := by
  unfold qabs
  rcases lt_or_le q 0 with h | h
  · simp [abs_of_neg h, h]
  · simp [abs_of_nonneg h, not_lt.mpr h]

/-- A raw sensor reading whose individual axes may be null. -/
structure RawAxes where
  x : Option ℚ
  y : Option ℚ
  z : Option ℚ
deriving DecidableEq

/-- A devicemotion event: both readings may be absent entirely. -/
structure MotionEvent where
  accelerationIncludingGravity : Option RawAxes
  acceleration : Option RawAxes
deriving DecidableEq

/-- Checks a reading for presence of all three axes, mirroring the guard
`!acc || acc.x === null || acc.y === null || acc.z === null` and the
predicate `hasLinearAcc` of handleMotion. -/
def readAxes : Option RawAxes → Option Vec3
  | none => none
  | some a =>
    match a.x, a.y, a.z with
    | some x, some y, some z => some ⟨x, y, z⟩
    | _, _, _ => none

inductive AudioMode where
  | off
  | discrete
  | frequency
  | frequencyFadeout
deriving DecidableEq

inductive GravityModeKind where
  | sensor
  | filter
deriving DecidableEq

/-- The config object of the BounceDetector constructor (defaults below). -/
structure Config where
  sensitivity : ℚ
  debounceTime : ℤ
  vibrationDuration : ℤ
  sampleWindow : ℕ
  audioMode : AudioMode
  audioVolume : ℚ
  gravityMode : GravityModeKind
deriving DecidableEq

/-- The defaults set in the constructor of docs/bounce-detector.js. -/
def defaultConfig : Config where
  sensitivity := 3
  debounceTime := 300
  vibrationDuration := 100
  sampleWindow := 10
  audioMode := AudioMode.off
  audioVolume := 1/2
  gravityMode := GravityModeKind.sensor

inductive Status where
  | ready
  | active
  | calibrating
  | warning
  | error
deriving DecidableEq

/-- Observable output of the analyzer, one list per processed call. -/
inductive Event where
  | magnitudeUpdate (m : ℚ)
  | bounce (newCount : ℕ)
  | calibrationComplete (baseline : ℚ)
  | statusChanged (st : Status)
  | setFrequencyTarget (freq : ℚ) (tc : ℚ)
  | setVolumeTarget (vol : ℚ) (tc : ℚ)
  | vibrate (durationMs : ℤ)
  | discreteTone
deriving DecidableEq

def Event.isBounce : Event → Bool
  | .bounce _ => true
  | _ => false

def Event.isCalibrationComplete : Event → Bool
  | .calibrationComplete _ => true
  | _ => false

def Event.isAudioTarget : Event → Bool
  | .setFrequencyTarget _ _ => true
  | .setVolumeTarget _ _ => true
  | _ => false

/-- Any output of detection or audio processing (bounce feedback or a
continuous audio target). -/
def Event.isDetectionOrAudio : Event → Bool
  | .bounce _ => true
  | .vibrate _ => true
  | .discreteTone => true
  | .setFrequencyTarget _ _ => true
  | .setVolumeTarget _ _ => true
  | _ => false

/-- Values carried by the magnitude-observation events. -/
def magnitudesOf (evs : List Event) : List ℚ :=
  evs.filterMap fun e =>
    match e with
    | .magnitudeUpdate m => some m
    | _ => none

/-- Values carried by the calibration-complete events. -/
def calibCompletionsOf (evs : List Event) : List ℚ :=
  evs.filterMap fun e =>
    match e with
    | .calibrationComplete b => some b
    | _ => none

/-- Mutable instance state of the BounceDetector. -/
structure DetectorState where
  isRunning : Bool
  lastBounceTime : ℤ
  samples : List (ℤ × ℚ)
  baselineMagnitude : ℚ
  calibrationSamples : List ℚ
  isCalibrating : Bool
  gravityX : ℚ
  gravityY : ℚ
  gravityZ : ℚ
  bounceCount : ℕ
deriving DecidableEq

/-- Constructor state of docs/bounce-detector.js. -/
def initialState : DetectorState where
  isRunning := false
  lastBounceTime := 0
  samples := []
  baselineMagnitude := 981/100
  calibrationSamples := []
  isCalibrating := false
  gravityX := 0
  gravityY := 0
  gravityZ := 981/100
  bounceCount := 0

/-- Gravity update of handleMotion: in sensor mode with a linear reading
present, gravity is the difference of the two readings; otherwise an
exponential low-pass filter with alpha 0.1 while calibrating and the slow
gravityAlpha 0.005 during detection. -/
def gravityUpdate (cfg : Config) (g : Vec3) (lin : Option Vec3)
    (s : DetectorState) : Vec3 :=
  match cfg.gravityMode, lin with
  | GravityModeKind.sensor, some l => ⟨g.x - l.x, g.y - l.y, g.z - l.z⟩
  | _, _ =>
    let alpha : ℚ := if s.isCalibrating then 1/10 else 5/1000
    ⟨alpha * g.x + (1 - alpha) * s.gravityX,
     alpha * g.y + (1 - alpha) * s.gravityY,
     alpha * g.z + (1 - alpha) * s.gravityZ⟩

/-- The scalar vertical magnitude of handleMotion, computed from the
incoming reading g, the optional linear reading lin and the updated
gravity estimate grav.  The useSensor branch requires sensor mode and a
linear reading; both division branches are guarded by
gravityMagnitude > 0.1. -/
def computeMagnitude (rsqrt : ℚ → ℚ) (cfg : Config) (baseline : ℚ)
    (g : Vec3) (lin : Option Vec3) (grav : Vec3) : ℚ :=
  let gravityMagnitude := rsqrt (dot grav grav)
  match cfg.gravityMode, lin with
  | GravityModeKind.sensor, some l =>
    if 1/10 < gravityMagnitude then
      baseline + dot l grav / gravityMagnitude
    else
      baseline
  | _, _ =>
    if 1/10 < gravityMagnitude then
      qabs (dot g grav / gravityMagnitude)
    else
      rsqrt (dot g g)

/-- detectBounce of docs/bounce-detector.js lines 333 to 349: returns
whether a bounce fired together with the updated lastBounceTime. -/
def detectBounce (cfg : Config) (baseline : ℚ) (lastBounceTime : ℤ)
    (currentMagnitude : ℚ) (now : ℤ) : Bool × ℤ :=
  if now - lastBounceTime < cfg.debounceTime then
    (false, lastBounceTime)
  else
    let deviation := qabs (currentMagnitude - baseline)
    if cfg.sensitivity < deviation then
      (true, now)
    else
      (false, lastBounceTime)

/-- The while-shift loop keeping only the most recent sampleWindow
samples. -/
def trimWindow (w : ℕ) : List (ℤ × ℚ) → List (ℤ × ℚ)
  | [] => []
  | p :: ps => if w < (p :: ps).length then trimWindow w ps else p :: ps

/-- updateFrequencyFromDeviation of docs/bounce-detector.js: maps the
deviation linearly onto 200 to 1000 Hz with maxDeviation fixed at 10. -/
def updateFrequencyFromDeviation (deviation : ℚ) : ℚ :=
  let minFreq : ℚ := 200
  let maxFreq : ℚ := 1000
  let maxDeviation : ℚ := 10
  let normalizedDeviation := min (deviation / maxDeviation) 1
  minFreq + (maxFreq - minFreq) * normalizedDeviation

/-- updateFrequencyFadeoutFromDeviation of docs/bounce-detector.js:
returns the target frequency, the target volume, and the smoothing time
constant chosen by comparing the target volume with the current gain
value of the oscillator gain node (passed in as currentVolume).  The
constants are 0.02 when rising and 0.15 when falling. -/
def updateFrequencyFadeoutFromDeviation (deviation currentVolume : ℚ) :
    ℚ × ℚ × ℚ :=
  let minFreq : ℚ := 200
  let maxFreq : ℚ := 1000
  let maxDeviation : ℚ := 10
  let normalizedDeviation := min (deviation / maxDeviation) 1
  let frequency := minFreq + (maxFreq - minFreq) * normalizedDeviation
  let minVolume : ℚ := 0
  let maxVolume : ℚ := 1
  let volume := minVolume + (maxVolume - minVolume) * normalizedDeviation
  let timeConstant : ℚ := if currentVolume < volume then 1/50 else 3/20
  (frequency, volume, timeConstant)

/-- The continuous audio updates issued for one sample, as events.  The
frequency smoothing time constant is the fixed 0.05 of setTargetAtTime. -/
def audioFeedback (cfg : Config) (deviation gain : ℚ) : List Event :=
  match cfg.audioMode with
  | AudioMode.frequency =>
    [Event.setFrequencyTarget (updateFrequencyFromDeviation deviation) (1/20)]
  | AudioMode.frequencyFadeout =>
    let u := updateFrequencyFadeoutFromDeviation deviation gain
    [Event.setFrequencyTarget u.1 (1/20), Event.setVolumeTarget u.2.1 u.2.2]
  | _ => []

/-- onBounceDetected plus triggerFeedback: the bounce signal carrying the
new count, the vibration, and the discrete buzz when that mode is on. -/
def bounceFeedback (cfg : Config) (newCount : ℕ) : List Event :=
  Event.bounce newCount :: Event.vibrate cfg.vibrationDuration ::
    (if cfg.audioMode = AudioMode.discrete then [Event.discreteTone] else [])

/-- finishCalibration of docs/bounce-detector.js lines 537 to 552 and
BounceDetector.kt lines 178 to 190: leaves calibration; with at least one
collected sample the baseline becomes the arithmetic mean and a
calibration-complete signal is emitted, otherwise nothing happens. -/
def finishCalibration (s : DetectorState) : DetectorState × List Event :=
  let s1 := { s with isCalibrating := false }
  if 0 < s1.calibrationSamples.length then
    let sum := s1.calibrationSamples.sum
    let baseline := sum / (s1.calibrationSamples.length : ℚ)
    ({ s1 with baselineMagnitude := baseline },
     [Event.calibrationComplete baseline, Event.statusChanged Status.ready])
  else
    (s1, [])

/-- handleMotion of docs/bounce-detector.js lines 45 to 142 (the Kotlin
processAcceleration is the same logic): discard samples with a missing
reading or a null axis; update gravity; compute the vertical magnitude;
emit the magnitude observation; while calibrating collect the magnitude
and finish at 50 samples; otherwise run the continuous audio mapping on
the deviation, buffer the sample, and run debounced bounce detection. -/
def handleMotion (rsqrt : ℚ → ℚ) (cfg : Config) (now : ℤ)
    (ev : MotionEvent) (gain : ℚ) (s : DetectorState) :
    DetectorState × List Event :=
  match readAxes ev.accelerationIncludingGravity with
  | none => (s, [])
  | some g =>
    let lin := readAxes ev.acceleration
    let grav := gravityUpdate cfg g lin s
    let s1 := { s with gravityX := grav.x, gravityY := grav.y,
                       gravityZ := grav.z }
    let magnitude := computeMagnitude rsqrt cfg s1.baselineMagnitude g lin grav
    if s1.isCalibrating then
      let s2 := { s1 with
        calibrationSamples := s1.calibrationSamples ++ [magnitude] }
      if 50 ≤ s2.calibrationSamples.length then
        let fc := finishCalibration s2
        (fc.1, Event.magnitudeUpdate magnitude :: fc.2)
      else
        (s2, [Event.magnitudeUpdate magnitude])
    else
      let deviation := qabs (magnitude - s1.baselineMagnitude)
      let audioEvs := audioFeedback cfg deviation gain
      let s2 := { s1 with
        samples := trimWindow cfg.sampleWindow (s1.samples ++ [(now, magnitude)]) }
      let db := detectBounce cfg s2.baselineMagnitude s2.lastBounceTime
        magnitude now
      let s3 := { s2 with lastBounceTime := db.2 }
      if db.1 then
        ({ s3 with bounceCount := s3.bounceCount + 1 },
         Event.magnitudeUpdate magnitude ::
           (audioEvs ++ bounceFeedback cfg (s3.bounceCount + 1)))
      else
        (s3, Event.magnitudeUpdate magnitude :: audioEvs)

/-- The externally triggered operations of the detector. -/
inductive Op where
  | startDetection
  | stopDetection
  | startCalibration
  | motion (now : ℤ) (ev : MotionEvent) (gain : ℚ)
deriving DecidableEq

/-- One operation of the detector: startDetection begins a session and
resets the bounce counter; stopDetection halts consumption;
startCalibration is rejected with a warning while detecting and otherwise
clears the collected samples and resets the gravity estimate to the
degenerate default; a motion sample is processed only while the listener
is attached, that is while detecting or calibrating. -/
def step (rsqrt : ℚ → ℚ) (cfg : Config) (op : Op) (s : DetectorState) :
    DetectorState × List Event :=
  match op with
  | Op.startDetection =>
    ({ s with isRunning := true, bounceCount := 0 },
     [Event.statusChanged Status.active])
  | Op.stopDetection =>
    ({ s with isRunning := false }, [Event.statusChanged Status.ready])
  | Op.startCalibration =>
    if s.isRunning then
      (s, [Event.statusChanged Status.warning])
    else
      ({ s with isCalibrating := true, calibrationSamples := [],
                gravityX := 0, gravityY := 0, gravityZ := 981/100 },
       [Event.statusChanged Status.calibrating])
  | Op.motion now ev gain =>
    if s.isRunning || s.isCalibrating then
      handleMotion rsqrt cfg now ev gain s
    else
      (s, [])

/-- Processing a list of timestamped motion events in order, concatenating
the emitted events. -/
def processAll (rsqrt : ℚ → ℚ) (cfg : Config) :
    List (ℤ × MotionEvent × ℚ) → DetectorState → DetectorState × List Event
  | [], s => (s, [])
  | (now, ev, gain) :: rest, s =>
    let r := handleMotion rsqrt cfg now ev gain s
    let r2 := processAll rsqrt cfg rest r.1
    (r2.1, r.2 ++ r2.2)

namespace ZVariant

/-!
The z-only variant src/bounce-detector.ts: it reads only the z axis of
the accelerationIncludingGravity reading (its null guard checks only
`!acceleration || acceleration.z === null`), keeps a baseline for the raw
z value, and has no gravity estimate.  Its audio mapping functions use
the same constants as the docs variant.
-/

structure State where
  lastBounceTime : ℤ
  samples : List (ℤ × ℚ)
  baselineZ : ℚ
  calibrationSamples : List ℚ
  isCalibrating : Bool
  bounceCount : ℕ
deriving DecidableEq

/-- Constructor state of src/bounce-detector.ts. -/
def init : State where
  lastBounceTime := 0
  samples := []
  baselineZ := 981/100
  calibrationSamples := []
  isCalibrating := false
  bounceCount := 0

/-- The z-axis value the variant reads, when present. -/
def zAxisOf (ev : MotionEvent) : Option ℚ :=
  match ev.accelerationIncludingGravity with
  | none => none
  | some a => a.z

/-- finishCalibration of src/bounce-detector.ts. -/
def finishCalibration (s : State) : State × List Event :=
  let s1 := { s with isCalibrating := false }
  if 0 < s1.calibrationSamples.length then
    let sum := s1.calibrationSamples.sum
    let baseline := sum / (s1.calibrationSamples.length : ℚ)
    ({ s1 with baselineZ := baseline },
     [Event.calibrationComplete baseline, Event.statusChanged Status.ready])
  else
    (s1, [])

/-- handleMotion of src/bounce-detector.ts lines 220 to 266: the sample is
discarded only when the reading is missing or its z axis is null; all
processing then uses the raw z value. -/
def handleMotion (cfg : Config) (now : ℤ) (ev : MotionEvent) (gain : ℚ)
    (s : State) : State × List Event :=
  match ev.accelerationIncludingGravity with
  | none => (s, [])
  | some acc =>
    match acc.z with
    | none => (s, [])
    | some z =>
      if s.isCalibrating then
        let s2 := { s with calibrationSamples := s.calibrationSamples ++ [z] }
        if 50 ≤ s2.calibrationSamples.length then
          let fc := finishCalibration s2
          (fc.1, Event.magnitudeUpdate z :: fc.2)
        else
          (s2, [Event.magnitudeUpdate z])
      else
        let deviation := qabs (z - s.baselineZ)
        let audioEvs := audioFeedback cfg deviation gain
        let s2 := { s with
          samples := trimWindow cfg.sampleWindow (s.samples ++ [(now, z)]) }
        let db := detectBounce cfg s2.baselineZ s2.lastBounceTime z now
        let s3 := { s2 with lastBounceTime := db.2 }
        if db.1 then
          ({ s3 with bounceCount := s3.bounceCount + 1 },
           Event.magnitudeUpdate z ::
             (audioEvs ++ bounceFeedback cfg (s3.bounceCount + 1)))
        else
          (s3, Event.magnitudeUpdate z :: audioEvs)

end ZVariant

namespace Kt

/-- updateFrequencyFromDeviation of BounceDetector.kt lines 447 to 456:
the same linear map with the maximum deviation taken from the
audioSensitivity config entry; it also resets the target volume to 1.
The docs variant is the instance at maxDeviation 10. -/
def updateFrequencyFromDeviation (audioSensitivity deviation : ℚ) : ℚ × ℚ :=
  let minFreq : ℚ := 200
  let maxFreq : ℚ := 1000
  let maxDeviation := audioSensitivity
  let normalizedDeviation := min (deviation / maxDeviation) 1
  (minFreq + (maxFreq - minFreq) * normalizedDeviation, 1)

end Kt

/-! ## Helper lemmas -/

theorem audioFeedback_filter_isBounce (cfg : Config) (d gain : ℚ) :
    (audioFeedback cfg d gain).filter Event.isBounce = [] := by
  unfold audioFeedback
  cases cfg.audioMode <;> simp [Event.isBounce]

theorem bounceFeedback_filter_isBounce (cfg : Config) (n : ℕ) :
    (bounceFeedback cfg n).filter Event.isBounce = [Event.bounce n] := by
  unfold bounceFeedback
  by_cases h : cfg.audioMode = AudioMode.discrete <;>
    simp [h, Event.isBounce]

/-! ## C5: the guards of the magnitude computation -/

/-- C5.  For every processed sample, the division by gravityMagnitude in
the magnitude computation is guarded: whenever gravityMagnitude is at
most 0.1, the Direct (sensor mode with a linear reading) branch yields
the held baselineMagnitude and the Filtered branch yields the raw
Euclidean norm of the incoming acceleration (the same square root of the
sum of squares the code computes); whenever gravityMagnitude exceeds 0.1,
the Filtered branch yields |dot(acc, GravityEstimate) / gravityMagnitude|.
Division happens only under the positive guard, which in this exact
embedding is the counterpart of never producing NaN or infinity. -/
theorem magnitude_guard_branches (rsqrt : ℚ → ℚ) (cfg : Config)
    (baseline : ℚ) (g : Vec3) (lin : Option Vec3) (grav : Vec3) :
    (rsqrt (dot grav grav) ≤ 1/10 → cfg.gravityMode = GravityModeKind.sensor →
      lin.isSome →
      computeMagnitude rsqrt cfg baseline g lin grav = baseline)
    ∧ (rsqrt (dot grav grav) ≤ 1/10 →
      ¬ (cfg.gravityMode = GravityModeKind.sensor ∧ lin.isSome) →
      computeMagnitude rsqrt cfg baseline g lin grav = rsqrt (dot g g))
    ∧ (1/10 < rsqrt (dot grav grav) →
      ¬ (cfg.gravityMode = GravityModeKind.sensor ∧ lin.isSome) →
      computeMagnitude rsqrt cfg baseline g lin grav =
        |dot g grav / rsqrt (dot grav grav)|) := by
  refine ⟨?_, ?_, ?_⟩
  · intro hle hmode hsome
    rcases hlin : lin with _ | l
    · rw [hlin] at hsome
      simp at hsome
    · unfold computeMagnitude
      rw [hmode]
      simp only []
      rw [if_neg (not_lt.mpr hle)]
  · intro hle hnot
    unfold computeMagnitude
    rcases hmode : cfg.gravityMode <;> rcases hlin : lin with _ | l <;>
      simp only []
    · rw [if_neg (not_lt.mpr hle)]
    · exact absurd (show cfg.gravityMode = GravityModeKind.sensor ∧
        lin.isSome = true from ⟨hmode, by rw [hlin]; rfl⟩) hnot
    · rw [if_neg (not_lt.mpr hle)]
    · rw [if_neg (not_lt.mpr hle)]
  · intro hlt hnot
    unfold computeMagnitude
    rcases hmode : cfg.gravityMode <;> rcases hlin : lin with _ | l <;>
      simp only []
    · rw [if_pos hlt, qabs_eq_abs]
    · exact absurd (show cfg.gravityMode = GravityModeKind.sensor ∧
        lin.isSome = true from ⟨hmode, by rw [hlin]; rfl⟩) hnot
    · rw [if_pos hlt, qabs_eq_abs]
    · rw [if_pos hlt, qabs_eq_abs]


/-- C5 witness: concrete instances for each of the three guarded
branches, with rsqrt instantiated to the identity function. -/
theorem magnitude_guard_branches_witness :
    ((fun q : ℚ => q) (dot ⟨0, 0, 0⟩ ⟨0, 0, 0⟩) ≤ 1/10
      ∧ (some (⟨0, 0, 0⟩ : Vec3)).isSome = true
      ∧ computeMagnitude (fun q => q) defaultConfig 5 ⟨0, 0, 0⟩
          (some ⟨0, 0, 0⟩) ⟨0, 0, 0⟩ = 5)
    ∧ (computeMagnitude (fun q => q)
        { defaultConfig with gravityMode := GravityModeKind.filter } 5
        ⟨0, 0, 1⟩ none ⟨0, 0, 0⟩ = (fun q : ℚ => q) (dot ⟨0, 0, 1⟩ ⟨0, 0, 1⟩))
    ∧ (computeMagnitude (fun q => q)
        { defaultConfig with gravityMode := GravityModeKind.filter } 5
        ⟨0, 0, 1⟩ none ⟨0, 0, 1⟩ =
        |dot ⟨0, 0, 1⟩ ⟨0, 0, 1⟩ / (fun q : ℚ => q) (dot ⟨0, 0, 1⟩ ⟨0, 0, 1⟩)|) := by
  refine ⟨⟨by norm_num [dot], by simp, ?_⟩, ?_, ?_⟩
  · exact (magnitude_guard_branches (fun q => q) defaultConfig 5 ⟨0, 0, 0⟩
      (some ⟨0, 0, 0⟩) ⟨0, 0, 0⟩).1 (by norm_num [dot]) rfl (by simp)
  · exact (magnitude_guard_branches (fun q => q)
      { defaultConfig with gravityMode := GravityModeKind.filter } 5
      ⟨0, 0, 1⟩ none ⟨0, 0, 0⟩).2.1 (by norm_num [dot])
      (by rintro ⟨h, hs⟩; simp at hs)
  · exact (magnitude_guard_branches (fun q => q)
      { defaultConfig with gravityMode := GravityModeKind.filter } 5
      ⟨0, 0, 1⟩ none ⟨0, 0, 1⟩).2.2 (by norm_num [dot])
      (by rintro ⟨h, hs⟩; simp at hs)

/-- C6.  If finishCalibration runs with an empty calibrationSamples list
(the stream stopped before any calibration sample arrived),
baselineMagnitude is left unchanged at its prior value, no
calibration-complete signal (indeed no signal at all) is emitted, and the
analyzer still leaves the calibrating state. -/
theorem finishCalibration_empty_noop (s : DetectorState)
    (h : s.calibrationSamples = []) :
    (finishCalibration s).1.baselineMagnitude = s.baselineMagnitude
    ∧ (finishCalibration s).2 = []
    ∧ (finishCalibration s).1.isCalibrating = false := by
  unfold finishCalibration
  simp [h]

/-- C6 witness: the empty-calibration case at the constructor state. -/
theorem finishCalibration_empty_noop_witness :
    initialState.calibrationSamples = []
    ∧ ((finishCalibration initialState).1.baselineMagnitude =
        initialState.baselineMagnitude
      ∧ (finishCalibration initialState).2 = []
      ∧ (finishCalibration initialState).1.isCalibrating = false) :=
  ⟨rfl, finishCalibration_empty_noop initialState rfl⟩

/-- C7.  The continuous frequency mapping is linear in the clamped
normalized deviation: for every deviation d at least 0 and positive
maxAudioDeviation, targetFrequency is 200 + 800 * min(d/maxAudioDeviation, 1)
Hz; deviation 0 gives 200 Hz, any deviation at least maxAudioDeviation
gives 1000 Hz, and deviation maxAudioDeviation/2 gives 600 Hz; the
normalized deviation always lies in the interval from 0 to 1.  The web
variant is the instance of the Kotlin mapping at maxAudioDeviation 10. -/
theorem frequency_mapping_linear (maxDev d : ℚ) (hm : 0 < maxDev)
    (hd : 0 ≤ d) :
    (Kt.updateFrequencyFromDeviation maxDev d).1 = 200 + 800 * min (d / maxDev) 1
    ∧ (Kt.updateFrequencyFromDeviation maxDev 0).1 = 200
    ∧ (maxDev ≤ d → (Kt.updateFrequencyFromDeviation maxDev d).1 = 1000)
    ∧ (Kt.updateFrequencyFromDeviation maxDev (maxDev / 2)).1 = 600
    ∧ 0 ≤ min (d / maxDev) 1 ∧ min (d / maxDev) 1 ≤ 1
    ∧ updateFrequencyFromDeviation d = (Kt.updateFrequencyFromDeviation 10 d).1 := by
  unfold Kt.updateFrequencyFromDeviation updateFrequencyFromDeviation
  dsimp only
  refine ⟨by norm_num, ?_, ?_, ?_, ?_, ?_, by norm_num⟩
  · rw [zero_div, min_eq_left (by norm_num : (0:ℚ) ≤ 1)]
    norm_num
  · intro hle
    have h1 : (1:ℚ) ≤ d / maxDev := (one_le_div hm).mpr hle
    rw [min_eq_right h1]
    norm_num
  · have h2 : maxDev / 2 / maxDev = 1/2 := by
      field_simp
      ring
    rw [h2, min_eq_left (by norm_num : (1:ℚ)/2 ≤ 1)]
    norm_num
  · exact le_min (div_nonneg hd hm.le) (by norm_num)
  · exact min_le_right _ _

/-- C7 witness at maxAudioDeviation 10 and deviation 5. -/
theorem frequency_mapping_linear_witness :
    (0:ℚ) < 10 ∧ (0:ℚ) ≤ 5
    ∧ ((Kt.updateFrequencyFromDeviation 10 5).1 = 200 + 800 * min ((5:ℚ) / 10) 1
      ∧ (Kt.updateFrequencyFromDeviation 10 0).1 = 200
      ∧ ((10:ℚ) ≤ 5 → (Kt.updateFrequencyFromDeviation 10 5).1 = 1000)
      ∧ (Kt.updateFrequencyFromDeviation 10 ((10:ℚ) / 2)).1 = 600
      ∧ 0 ≤ min ((5:ℚ) / 10) 1 ∧ min ((5:ℚ) / 10) 1 ≤ 1
      ∧ updateFrequencyFromDeviation 5 = (Kt.updateFrequencyFromDeviation 10 5).1) :=
  ⟨by norm_num, by norm_num,
    frequency_mapping_linear 10 5 (by norm_num) (by norm_num)⟩

/-- C8.  In frequency-fadeout mode the volume smoothing is asymmetric:
whenever the computed target volume exceeds the current volume the chosen
smoothing time constant is 0.02 s, whenever it does not the chosen
constant is 0.15 s, and the rising constant is strictly smaller than the
falling one, so a step increase in deviation approaches its target volume
faster than an equal-magnitude decrease. -/
theorem fadeout_smoothing_asymmetric (d1 cv1 d2 cv2 : ℚ)
    (h1 : cv1 < (updateFrequencyFadeoutFromDeviation d1 cv1).2.1)
    (h2 : ¬ cv2 < (updateFrequencyFadeoutFromDeviation d2 cv2).2.1) :
    (updateFrequencyFadeoutFromDeviation d1 cv1).2.2 = 1/50
    ∧ (updateFrequencyFadeoutFromDeviation d2 cv2).2.2 = 3/20
    ∧ (updateFrequencyFadeoutFromDeviation d1 cv1).2.2 <
        (updateFrequencyFadeoutFromDeviation d2 cv2).2.2 := by
  unfold updateFrequencyFadeoutFromDeviation at h1 h2 ⊢
  simp only at h1 h2 ⊢
  rw [if_pos h1, if_neg h2]
  exact ⟨rfl, rfl, by norm_num⟩

/-- C8 witness: a rising step (deviation 10 from volume 0) against a
falling step (deviation 0 from volume 1). -/
theorem fadeout_smoothing_asymmetric_witness :
    ((0:ℚ) < (updateFrequencyFadeoutFromDeviation 10 0).2.1
      ∧ ¬ (1:ℚ) < (updateFrequencyFadeoutFromDeviation 0 1).2.1)
    ∧ ((updateFrequencyFadeoutFromDeviation 10 0).2.2 = 1/50
      ∧ (updateFrequencyFadeoutFromDeviation 0 1).2.2 = 3/20
      ∧ (updateFrequencyFadeoutFromDeviation 10 0).2.2 <
          (updateFrequencyFadeoutFromDeviation 0 1).2.2) := by
  have ha : (0:ℚ) < (updateFrequencyFadeoutFromDeviation 10 0).2.1 := by
    unfold updateFrequencyFadeoutFromDeviation
    norm_num
  have hb : ¬ (1:ℚ) < (updateFrequencyFadeoutFromDeviation 0 1).2.1 := by
    unfold updateFrequencyFadeoutFromDeviation
    norm_num
  exact ⟨⟨ha, hb⟩, fadeout_smoothing_asymmetric 10 0 0 1 ha hb⟩

/-- detectBounce rewritten as a single conditional: it fires exactly when
the debounce window has elapsed and the deviation strictly exceeds the
sensitivity. -/
theorem detectBounce_spec (cfg : Config) (b : ℚ) (last : ℤ) (m : ℚ)
    (now : ℤ) :
    detectBounce cfg b last m now =
      if cfg.debounceTime ≤ now - last ∧ cfg.sensitivity < qabs (m - b) then
        (true, now)
      else
        (false, last) := by
  unfold detectBounce
  rcases lt_or_le (now - last) cfg.debounceTime with h | h
  · rw [if_pos h, if_neg]
    rintro ⟨h1, _⟩
    exact absurd h1 (not_le.mpr h)
  · rw [if_neg (not_lt.mpr h)]
    dsimp only
    by_cases h2 : cfg.sensitivity < qabs (m - b)
    · rw [if_pos h2, if_pos ⟨h, h2⟩]
    · rw [if_neg h2, if_neg (by rintro ⟨_, hc⟩; exact h2 hc)]

/-- C1.  For every processed sample while in the Detecting state (running
and not calibrating, with a usable reading), a bounce fires if and only
if the debounce window has elapsed (timestamp minus lastBounceTimeMs at
least debounceTimeMs) and the deviation of the computed magnitude from
baselineMagnitude strictly exceeds the sensitivity.  On every fire,
lastBounceTimeMs becomes the timestamp of the sample, bounceCount grows
by exactly one, and exactly one bounce-detected signal carrying the new
count is emitted; otherwise none of the three changes. -/
theorem bounce_fires_iff_thresholds (rsqrt : ℚ → ℚ) (cfg : Config)
    (now : ℤ) (ev : MotionEvent) (gain : ℚ) (s : DetectorState)
    (g : Vec3) (m : ℚ)
    (hrun : s.isRunning = true) (hcal : s.isCalibrating = false)
    (hg : readAxes ev.accelerationIncludingGravity = some g)
    (hm : m = computeMagnitude rsqrt cfg s.baselineMagnitude g
      (readAxes ev.acceleration)
      (gravityUpdate cfg g (readAxes ev.acceleration) s)) :
    (cfg.debounceTime ≤ now - s.lastBounceTime
        ∧ cfg.sensitivity < qabs (m - s.baselineMagnitude) →
      (step rsqrt cfg (Op.motion now ev gain) s).1.lastBounceTime = now
      ∧ (step rsqrt cfg (Op.motion now ev gain) s).1.bounceCount =
          s.bounceCount + 1
      ∧ (step rsqrt cfg (Op.motion now ev gain) s).2.filter Event.isBounce =
          [Event.bounce (s.bounceCount + 1)])
    ∧ (¬ (cfg.debounceTime ≤ now - s.lastBounceTime
        ∧ cfg.sensitivity < qabs (m - s.baselineMagnitude)) →
      (step rsqrt cfg (Op.motion now ev gain) s).1.lastBounceTime =
          s.lastBounceTime
      ∧ (step rsqrt cfg (Op.motion now ev gain) s).1.bounceCount =
          s.bounceCount
      ∧ (step rsqrt cfg (Op.motion now ev gain) s).2.filter Event.isBounce =
          []) := by
  subst hm
  unfold step
  simp only [hrun, Bool.true_or, if_true]
  unfold handleMotion
  rw [hg]
  dsimp only
  simp only [hcal, Bool.false_eq_true, if_false]
  rw [detectBounce_spec]
  by_cases hfire : cfg.debounceTime ≤ now - s.lastBounceTime
      ∧ cfg.sensitivity < qabs (computeMagnitude rsqrt cfg s.baselineMagnitude g
        (readAxes ev.acceleration)
        (gravityUpdate cfg g (readAxes ev.acceleration) s) - s.baselineMagnitude)
  · rw [if_pos hfire]
    refine ⟨fun _ => ⟨rfl, rfl, ?_⟩, fun hn => absurd hfire hn⟩
    simp [List.filter_append, audioFeedback_filter_isBounce,
      bounceFeedback_filter_isBounce, Event.isBounce]
  · rw [if_neg hfire]
    refine ⟨fun h => absurd h hfire, fun _ => ⟨rfl, rfl, ?_⟩⟩
    simp [List.filter_append, audioFeedback_filter_isBounce, Event.isBounce]

/-- Concrete sample for the C1 witness: reading (0,0,-3) with linear
reading (0,0,-4), so the updated gravity is (0,0,1) and the magnitude is
9.81 - 4 = 5.81, a deviation of 4. -/
def w1Ev : MotionEvent :=
  ⟨some ⟨some 0, some 0, some (-3)⟩, some ⟨some 0, some 0, some (-4)⟩⟩

/-- Detecting-state for the C1 witness. -/
def w1S : DetectorState := { initialState with isRunning := true }

/-- C1 witness: at timestamp 1000 the debounce window has elapsed and the
deviation 4 exceeds the default sensitivity 3, so the sample fires. -/
theorem bounce_fires_iff_thresholds_witness :
    (w1S.isRunning = true ∧ w1S.isCalibrating = false
      ∧ readAxes w1Ev.accelerationIncludingGravity = some ⟨0, 0, -3⟩
      ∧ (581/100 : ℚ) = computeMagnitude (fun q => q) defaultConfig
          w1S.baselineMagnitude ⟨0, 0, -3⟩ (readAxes w1Ev.acceleration)
          (gravityUpdate defaultConfig ⟨0, 0, -3⟩ (readAxes w1Ev.acceleration) w1S))
    ∧ ((defaultConfig.debounceTime ≤ 1000 - w1S.lastBounceTime
        ∧ defaultConfig.sensitivity < qabs ((581/100 : ℚ) - w1S.baselineMagnitude) →
      (step (fun q => q) defaultConfig (Op.motion 1000 w1Ev 0) w1S).1.lastBounceTime = 1000
      ∧ (step (fun q => q) defaultConfig (Op.motion 1000 w1Ev 0) w1S).1.bounceCount =
          w1S.bounceCount + 1
      ∧ (step (fun q => q) defaultConfig (Op.motion 1000 w1Ev 0) w1S).2.filter Event.isBounce =
          [Event.bounce (w1S.bounceCount + 1)])
    ∧ (¬ (defaultConfig.debounceTime ≤ 1000 - w1S.lastBounceTime
        ∧ defaultConfig.sensitivity < qabs ((581/100 : ℚ) - w1S.baselineMagnitude)) →
      (step (fun q => q) defaultConfig (Op.motion 1000 w1Ev 0) w1S).1.lastBounceTime =
          w1S.lastBounceTime
      ∧ (step (fun q => q) defaultConfig (Op.motion 1000 w1Ev 0) w1S).1.bounceCount =
          w1S.bounceCount
      ∧ (step (fun q => q) defaultConfig (Op.motion 1000 w1Ev 0) w1S).2.filter Event.isBounce =
          [])) := by
  have hg : readAxes w1Ev.accelerationIncludingGravity = some ⟨0, 0, -3⟩ := rfl
  have hm : (581/100 : ℚ) = computeMagnitude (fun q => q) defaultConfig
      w1S.baselineMagnitude ⟨0, 0, -3⟩ (readAxes w1Ev.acceleration)
      (gravityUpdate defaultConfig ⟨0, 0, -3⟩ (readAxes w1Ev.acceleration) w1S) := by
    norm_num [computeMagnitude, dot, gravityUpdate, readAxes, w1Ev, w1S,
      initialState, defaultConfig]
  exact ⟨⟨rfl, rfl, hg, hm⟩,
    bounce_fires_iff_thresholds (fun q => q) defaultConfig 1000 w1Ev 0 w1S
      ⟨0, 0, -3⟩ (581/100) rfl rfl hg hm⟩

/-- C10.  In Direct (sensor) mode with gravityMagnitude above 0.1, the
deviation used for both bounce detection and audio mapping equals
|dot(linearAcc, GravityEstimate) / gravityMagnitude| exactly, because the
magnitude is baselineMagnitude plus the vertical linear projection; hence
the bounce-detection outcome, the emitted bounce signals, the audio
targets and the updated lastBounceTimeMs are unchanged when
baselineMagnitude is replaced by any other value. -/
theorem direct_mode_baseline_independent (rsqrt : ℚ → ℚ) (cfg : Config)
    (now : ℤ) (ev : MotionEvent) (gain : ℚ) (s : DetectorState) (b2 : ℚ)
    (g l : Vec3)
    (hmode : cfg.gravityMode = GravityModeKind.sensor)
    (hg : readAxes ev.accelerationIncludingGravity = some g)
    (hl : readAxes ev.acceleration = some l)
    (hcal : s.isCalibrating = false)
    (hgm : 1/10 < rsqrt (dot (gravityUpdate cfg g (some l) s)
      (gravityUpdate cfg g (some l) s))) :
    qabs (computeMagnitude rsqrt cfg s.baselineMagnitude g (some l)
        (gravityUpdate cfg g (some l) s) - s.baselineMagnitude) =
      |dot l (gravityUpdate cfg g (some l) s) /
        rsqrt (dot (gravityUpdate cfg g (some l) s)
          (gravityUpdate cfg g (some l) s))|
    ∧ (handleMotion rsqrt cfg now ev gain s).2.filter Event.isBounce =
      (handleMotion rsqrt cfg now ev gain
        { s with baselineMagnitude := b2 }).2.filter Event.isBounce
    ∧ (handleMotion rsqrt cfg now ev gain s).2.filter Event.isAudioTarget =
      (handleMotion rsqrt cfg now ev gain
        { s with baselineMagnitude := b2 }).2.filter Event.isAudioTarget
    ∧ (handleMotion rsqrt cfg now ev gain s).1.lastBounceTime =
      (handleMotion rsqrt cfg now ev gain
        { s with baselineMagnitude := b2 }).1.lastBounceTime := by
  have hgravs : ∀ t : DetectorState, gravityUpdate cfg g (some l) t =
      ⟨g.x - l.x, g.y - l.y, g.z - l.z⟩ := by
    intro t
    unfold gravityUpdate
    rw [hmode]
  have hmag : ∀ b : ℚ, computeMagnitude rsqrt cfg b g (some l)
      (gravityUpdate cfg g (some l) s) =
      b + dot l (gravityUpdate cfg g (some l) s) /
        rsqrt (dot (gravityUpdate cfg g (some l) s)
          (gravityUpdate cfg g (some l) s)) := by
    intro b
    unfold computeMagnitude
    rw [hmode]
    dsimp only
    rw [if_pos hgm]
  have hdev : ∀ b : ℚ, qabs (computeMagnitude rsqrt cfg b g (some l)
      (gravityUpdate cfg g (some l) s) - b) =
      qabs (dot l (gravityUpdate cfg g (some l) s) /
        rsqrt (dot (gravityUpdate cfg g (some l) s)
          (gravityUpdate cfg g (some l) s))) := by
    intro b
    rw [hmag b, add_sub_cancel_left]
  refine ⟨by rw [hdev s.baselineMagnitude, qabs_eq_abs], ?_⟩
  unfold handleMotion
  rw [hg]
  dsimp only
  rw [hl]
  simp only [hcal, Bool.false_eq_true, if_false]
  rw [detectBounce_spec, detectBounce_spec]
  simp only [hgravs]
  rw [← hgravs s]
  rw [hdev s.baselineMagnitude, hdev b2]
  by_cases hfire : cfg.debounceTime ≤ now - s.lastBounceTime
      ∧ cfg.sensitivity < qabs (dot l (gravityUpdate cfg g (some l) s) /
        rsqrt (dot (gravityUpdate cfg g (some l) s)
          (gravityUpdate cfg g (some l) s)))
  · rw [if_pos hfire]
    exact ⟨rfl, rfl, rfl⟩
  · rw [if_neg hfire]
    exact ⟨rfl, rfl, rfl⟩

/-- C10 witness: the concrete direct-mode sample of the C1 witness, with
the baseline replaced by 5. -/
theorem direct_mode_baseline_independent_witness :
    (defaultConfig.gravityMode = GravityModeKind.sensor
      ∧ readAxes w1Ev.accelerationIncludingGravity = some ⟨0, 0, -3⟩
      ∧ readAxes w1Ev.acceleration = some ⟨0, 0, -4⟩
      ∧ w1S.isCalibrating = false
      ∧ (1/10 : ℚ) < (fun q : ℚ => q) (dot
          (gravityUpdate defaultConfig ⟨0, 0, -3⟩ (some ⟨0, 0, -4⟩) w1S)
          (gravityUpdate defaultConfig ⟨0, 0, -3⟩ (some ⟨0, 0, -4⟩) w1S)))
    ∧ (qabs (computeMagnitude (fun q => q) defaultConfig w1S.baselineMagnitude
          ⟨0, 0, -3⟩ (some ⟨0, 0, -4⟩)
          (gravityUpdate defaultConfig ⟨0, 0, -3⟩ (some ⟨0, 0, -4⟩) w1S) -
            w1S.baselineMagnitude) =
        |dot ⟨0, 0, -4⟩ (gravityUpdate defaultConfig ⟨0, 0, -3⟩ (some ⟨0, 0, -4⟩) w1S) /
          (fun q : ℚ => q) (dot
            (gravityUpdate defaultConfig ⟨0, 0, -3⟩ (some ⟨0, 0, -4⟩) w1S)
            (gravityUpdate defaultConfig ⟨0, 0, -3⟩ (some ⟨0, 0, -4⟩) w1S))|
      ∧ (handleMotion (fun q => q) defaultConfig 1000 w1Ev 0 w1S).2.filter
          Event.isBounce =
        (handleMotion (fun q => q) defaultConfig 1000 w1Ev 0
          { w1S with baselineMagnitude := 5 }).2.filter Event.isBounce
      ∧ (handleMotion (fun q => q) defaultConfig 1000 w1Ev 0 w1S).2.filter
          Event.isAudioTarget =
        (handleMotion (fun q => q) defaultConfig 1000 w1Ev 0
          { w1S with baselineMagnitude := 5 }).2.filter Event.isAudioTarget
      ∧ (handleMotion (fun q => q) defaultConfig 1000 w1Ev 0 w1S).1.lastBounceTime =
        (handleMotion (fun q => q) defaultConfig 1000 w1Ev 0
          { w1S with baselineMagnitude := 5 }).1.lastBounceTime) := by
  have hgm : (1/10 : ℚ) < (fun q : ℚ => q) (dot
      (gravityUpdate defaultConfig ⟨0, 0, -3⟩ (some ⟨0, 0, -4⟩) w1S)
      (gravityUpdate defaultConfig ⟨0, 0, -3⟩ (some ⟨0, 0, -4⟩) w1S)) := by
    norm_num [gravityUpdate, dot, defaultConfig]
  exact ⟨⟨rfl, rfl, rfl, rfl, hgm⟩,
    direct_mode_baseline_independent (fun q => q) defaultConfig 1000 w1Ev 0
      w1S 5 ⟨0, 0, -3⟩ ⟨0, 0, -4⟩ rfl rfl rfl rfl hgm⟩

/-- Feeding a stream of timestamped magnitudes through the debounced
detectBounce loop with a fixed baseline, collecting the timestamps at
which bounces fire (this is the per-sample detection call of
handleMotion, iterated). -/
def bounceTimes (cfg : Config) (baseline : ℚ) :
    List (ℤ × ℚ) → ℤ → List ℤ
  | [], _ => []
  | (now, m) :: rest, last =>
    let db := detectBounce cfg baseline last m now
    (if db.1 then [now] else []) ++ bounceTimes cfg baseline rest db.2

/-- The detection loop on streams all of whose deviations exceed the
sensitivity: only the time gate remains. -/
def bounceTimesT (debounce : ℤ) : List ℤ → ℤ → List ℤ
  | [], _ => []
  | now :: rest, last =>
    if now - last < debounce then bounceTimesT debounce rest last
    else now :: bounceTimesT debounce rest now

theorem bounceTimes_always_exceeding (cfg : Config) (baseline : ℚ) :
    ∀ (l : List (ℤ × ℚ)) (last : ℤ),
      (∀ p ∈ l, cfg.sensitivity < qabs (p.2 - baseline)) →
      bounceTimes cfg baseline l last =
        bounceTimesT cfg.debounceTime (l.map Prod.fst) last := by
  intro l
  induction l with
  | nil =>
    intro last h
    rfl
  | cons p rest ih =>
    intro last h
    obtain ⟨now, m⟩ := p
    have hm : cfg.sensitivity < qabs (m - baseline) :=
      h (now, m) (List.mem_cons_self _ _)
    have hrest : ∀ q ∈ rest, cfg.sensitivity < qabs (q.2 - baseline) :=
      fun q hq => h q (List.mem_cons_of_mem _ hq)
    have hdb := detectBounce_spec cfg baseline last m now
    rcases lt_or_le (now - last) cfg.debounceTime with hlt | hle
    · rw [if_neg (by rintro ⟨h1, _⟩; exact absurd h1 (not_le.mpr hlt))] at hdb
      unfold bounceTimes bounceTimesT
      dsimp only [List.map_cons]
      rw [hdb]
      dsimp only
      rw [if_pos hlt]
      simpa using ih last hrest
    · rw [if_pos ⟨hle, hm⟩] at hdb
      unfold bounceTimes bounceTimesT
      dsimp only [List.map_cons]
      rw [hdb]
      dsimp only
      rw [if_neg (not_lt.mpr hle)]
      simpa using ih now hrest

/-- A stream of 100 samples 10 ms apart from t = 0 to t = 990, each of magnitude 15,
whose deviation 5.19 from the default baseline 9.81 exceeds the default
sensitivity 3. -/
def sampleStream100 : List (ℤ × ℚ) :=
  (List.range 100).map fun i => (10 * (i : ℤ), 15)

/-- The timestamps 0, 10, ..., 990. -/
def tenMsTimestamps : List ℤ := (List.range 100).map fun i => 10 * (i : ℤ)

/-- C3 counterexample: with sensitivity 3.0, debounce 300 ms and
lastBounceTimeMs initially 0, a stream of deviation-exceeding samples at
10 ms intervals from t = 0 to t = 990 yields bounce events at t = 300,
600 and 900 only: three events, not the four events at t = 0, 300, 600,
900 the claim states.  The t = 0 sample is blocked by the debounce gate
since 0 - 0 < 300. -/
theorem debounce_stream_counterexample :
    (∀ p ∈ sampleStream100,
      defaultConfig.sensitivity < qabs (p.2 - 981/100))
    ∧ bounceTimes defaultConfig (981/100) sampleStream100 0 = [300, 600, 900]
    ∧ bounceTimes defaultConfig (981/100) sampleStream100 0 ≠
        [0, 300, 600, 900] := by
  have hdev : ∀ p ∈ sampleStream100,
      defaultConfig.sensitivity < qabs (p.2 - 981/100) := by
    intro p hp
    have h15 : p.2 = 15 := by
      unfold sampleStream100 at hp
      obtain ⟨i, _, rfl⟩ := List.mem_map.mp hp
      rfl
    rw [h15]
    norm_num [qabs, defaultConfig]
  have heq : bounceTimes defaultConfig (981/100) sampleStream100 0 =
      bounceTimesT 300 tenMsTimestamps 0 := by
    rw [bounceTimes_always_exceeding _ _ _ _ hdev]
    have hmap : sampleStream100.map Prod.fst = tenMsTimestamps := by decide
    rw [hmap]
    rfl
  refine ⟨hdev, ?_, ?_⟩
  · rw [heq]
    decide
  · rw [heq]
    decide

/-- C3 amended.  With sensitivity 3.0, debounce 300 ms and
lastBounceTimeMs initially 0, a stream of 100 samples at 10 ms intervals
from t = 0 to t = 990, each of whose deviations strictly exceeds the
sensitivity, yields exactly three bounce events, at t = 300, 600 and 900
(not one per sample): the t = 0 sample is suppressed because
0 - lastBounceTimeMs = 0 is below the 300 ms debounce window. -/
theorem debounce_stream_amended (ms : List ℚ) (baseline : ℚ)
    (hlen : ms.length = 100)
    (hdev : ∀ m ∈ ms, defaultConfig.sensitivity < qabs (m - baseline)) :
    bounceTimes defaultConfig baseline (tenMsTimestamps.zip ms) 0 =
      [300, 600, 900] := by
  have h1 : ∀ p ∈ tenMsTimestamps.zip ms,
      defaultConfig.sensitivity < qabs (p.2 - baseline) := by
    intro p hp
    obtain ⟨a, b⟩ := p
    exact hdev b (List.of_mem_zip hp).2
  rw [bounceTimes_always_exceeding _ _ _ _ h1]
  have h2 : (tenMsTimestamps.zip ms).map Prod.fst = tenMsTimestamps := by
    apply List.map_fst_zip
    rw [hlen]
    decide
  rw [h2]
  decide

/-- C3 witness: 100 samples of magnitude 15 against baseline 10. -/
theorem debounce_stream_amended_witness :
    (List.replicate 100 (15:ℚ)).length = 100
    ∧ (∀ m ∈ List.replicate 100 (15:ℚ),
        defaultConfig.sensitivity < qabs (m - 10))
    ∧ bounceTimes defaultConfig 10
        (tenMsTimestamps.zip (List.replicate 100 (15:ℚ))) 0 =
        [300, 600, 900] := by
  have hlen : (List.replicate 100 (15:ℚ)).length = 100 := by decide
  have hdev : ∀ m ∈ List.replicate 100 (15:ℚ),
      defaultConfig.sensitivity < qabs (m - 10) := by
    intro m hm
    rw [List.eq_of_mem_replicate hm]
    norm_num [qabs, defaultConfig]
  exact ⟨hlen, hdev,
    debounce_stream_amended (List.replicate 100 (15:ℚ)) 10 hlen hdev⟩

/-- A sample whose accelerationIncludingGravity reading is present but
has a null x axis (y = 5, z = 15), with no linear reading. -/
def nullXEv : MotionEvent := ⟨some ⟨none, some 5, some 15⟩, none⟩

/-- C4 counterexample: the z-only variant (src/bounce-detector.ts) checks
only the z axis, so this sample with a null x axis is processed rather
than discarded: from the constructor state at t = 1000 it mutates the
samples buffer and lastBounceTime, increments bounceCount to 1 and emits
signals, among them a bounce.  This contradicts the claim that a sample
with any null axis is a no-op. -/
theorem null_axis_zvariant_counterexample :
    nullXEv.accelerationIncludingGravity = some ⟨none, some 5, some 15⟩
    ∧ (ZVariant.handleMotion defaultConfig 1000 nullXEv 0 ZVariant.init).1.bounceCount = 1
    ∧ (ZVariant.handleMotion defaultConfig 1000 nullXEv 0
        ZVariant.init).1.samples = [(1000, 15)]
    ∧ (ZVariant.handleMotion defaultConfig 1000 nullXEv 0
        ZVariant.init).2.filter Event.isBounce = [Event.bounce 1]
    ∧ (ZVariant.handleMotion defaultConfig 1000 nullXEv 0 ZVariant.init).2 ≠
        [] := by
  have hdb : detectBounce defaultConfig (981/100) 0 15 1000 = (true, 1000) := by
    unfold detectBounce
    norm_num [qabs, defaultConfig]
  have hrun : ZVariant.handleMotion defaultConfig 1000 nullXEv 0 ZVariant.init =
      ({ lastBounceTime := 1000, samples := [(1000, 15)], baselineZ := 981/100,
         calibrationSamples := [], isCalibrating := false, bounceCount := 1 },
       [Event.magnitudeUpdate 15, Event.bounce 1, Event.vibrate 100]) := by
    norm_num [ZVariant.handleMotion, nullXEv, ZVariant.init, detectBounce,
      qabs, defaultConfig, audioFeedback, bounceFeedback, trimWindow]
    decide
  rw [hrun]
  refine ⟨rfl, rfl, rfl, ?_, ?_⟩
  · rfl
  · intro h
    exact absurd h (by simp)

/-- C4 amended.  In the three-axis variants (docs/bounce-detector.js and
the Kotlin port) a sample whose accelerationIncludingGravity reading is
missing or has any null axis is a no-op: state unchanged, no signal
emitted.  In the z-only variant (src/bounce-detector.ts) only a missing
reading or a null z axis discards the sample; a sample with a null x or y
axis but a non-null z is processed normally. -/
theorem null_axis_noop_amended (rsqrt : ℚ → ℚ) (cfg : Config)
    (now nowz : ℤ) (gain gainz : ℚ) (ev evz : MotionEvent)
    (s : DetectorState) (zs : ZVariant.State)
    (h3 : readAxes ev.accelerationIncludingGravity = none)
    (hz : ZVariant.zAxisOf evz = none) :
    handleMotion rsqrt cfg now ev gain s = (s, [])
    ∧ ZVariant.handleMotion cfg nowz evz gainz zs = (zs, []) := by
  constructor
  · unfold handleMotion
    rw [h3]
  · unfold ZVariant.zAxisOf at hz
    unfold ZVariant.handleMotion
    rcases hacc : evz.accelerationIncludingGravity with _ | a
    · rfl
    · rw [hacc] at hz
      dsimp only at hz ⊢
      rw [hz]

/-- C4 witness: a three-axis sample with a null y axis and a z-variant
sample with a missing reading, both no-ops. -/
theorem null_axis_noop_amended_witness :
    readAxes (MotionEvent.mk (some ⟨some 1, none, some 2⟩) none).accelerationIncludingGravity = none
    ∧ ZVariant.zAxisOf (MotionEvent.mk none none) = none
    ∧ (handleMotion (fun q => q) defaultConfig 0
        (MotionEvent.mk (some ⟨some 1, none, some 2⟩) none) 0 initialState =
        (initialState, [])
      ∧ ZVariant.handleMotion defaultConfig 0 (MotionEvent.mk none none) 0
          ZVariant.init = (ZVariant.init, [])) :=
  ⟨rfl, rfl,
    null_axis_noop_amended (fun q => q) defaultConfig 0 0 0 0
      (MotionEvent.mk (some ⟨some 1, none, some 2⟩) none)
      (MotionEvent.mk none none) initialState ZVariant.init rfl rfl⟩

theorem finishCalibration_preserves (t : DetectorState) :
    (finishCalibration t).1.bounceCount = t.bounceCount
    ∧ (finishCalibration t).1.lastBounceTime = t.lastBounceTime
    ∧ (finishCalibration t).2.filter Event.isBounce = [] := by
  unfold finishCalibration
  dsimp only
  split_ifs with h <;> simp [Event.isBounce]

/-- C9.  Across the operations of one session, bounceCount is reset to 0
exactly by startDetection; every other operation changes bounceCount by
precisely the number of bounce signals it emits (zero or one), so within
a session the counter is monotonically non-decreasing and is incremented
only on bounce detection.  With a non-negative debounce window (the
default is 300 ms), lastBounceTimeMs never decreases on any operation. -/
theorem counter_invariants (rsqrt : ℚ → ℚ) (cfg : Config) (op : Op)
    (s : DetectorState) (hdb : 0 ≤ cfg.debounceTime) :
    (step rsqrt cfg Op.startDetection s).1.bounceCount = 0
    ∧ (op ≠ Op.startDetection →
        (step rsqrt cfg op s).1.bounceCount =
          s.bounceCount + ((step rsqrt cfg op s).2.filter Event.isBounce).length)
    ∧ s.lastBounceTime ≤ (step rsqrt cfg op s).1.lastBounceTime := by
  refine ⟨rfl, ?_, ?_⟩
  · cases op with
    | startDetection => exact fun hne => absurd rfl hne
    | stopDetection =>
      intro _
      simp [step, Event.isBounce]
    | startCalibration =>
      intro _
      unfold step
      split_ifs with h <;> simp [Event.isBounce]
    | motion now ev gain =>
      intro _
      unfold step
      dsimp only
      split_ifs with hon
      · unfold handleMotion
        rcases hg : readAxes ev.accelerationIncludingGravity with _ | g
        · simp [Event.isBounce]
        · dsimp only
          by_cases hc : s.isCalibrating = true
          · rw [if_pos hc]
            split_ifs with h50
            · have hp := finishCalibration_preserves
                { s with
                  gravityX := (gravityUpdate cfg g (readAxes ev.acceleration) s).x,
                  gravityY := (gravityUpdate cfg g (readAxes ev.acceleration) s).y,
                  gravityZ := (gravityUpdate cfg g (readAxes ev.acceleration) s).z,
                  calibrationSamples := s.calibrationSamples ++
                    [computeMagnitude rsqrt cfg s.baselineMagnitude g
                      (readAxes ev.acceleration)
                      (gravityUpdate cfg g (readAxes ev.acceleration) s)] }
              simp [Event.isBounce, hp.1, hp.2.2]
            · simp [Event.isBounce]
          · rw [if_neg hc]
            rw [detectBounce_spec]
            by_cases hfire : cfg.debounceTime ≤ now - s.lastBounceTime
                ∧ cfg.sensitivity < qabs (computeMagnitude rsqrt cfg
                  s.baselineMagnitude g (readAxes ev.acceleration)
                  (gravityUpdate cfg g (readAxes ev.acceleration) s) -
                    s.baselineMagnitude)
            · rw [if_pos hfire]
              simp [List.filter_append, audioFeedback_filter_isBounce,
                bounceFeedback_filter_isBounce, Event.isBounce]
            · rw [if_neg hfire]
              simp [List.filter_append, audioFeedback_filter_isBounce,
                Event.isBounce]
      · simp [Event.isBounce]
  · cases op with
    | startDetection => exact le_refl _
    | stopDetection => exact le_refl _
    | startCalibration =>
      unfold step
      split_ifs with h <;> exact le_refl _
    | motion now ev gain =>
      unfold step
      dsimp only
      split_ifs with hon
      · unfold handleMotion
        rcases hg : readAxes ev.accelerationIncludingGravity with _ | g
        · exact le_refl _
        · dsimp only
          by_cases hc : s.isCalibrating = true
          · rw [if_pos hc]
            split_ifs with h50
            · have hp := finishCalibration_preserves
                { s with
                  gravityX := (gravityUpdate cfg g (readAxes ev.acceleration) s).x,
                  gravityY := (gravityUpdate cfg g (readAxes ev.acceleration) s).y,
                  gravityZ := (gravityUpdate cfg g (readAxes ev.acceleration) s).z,
                  calibrationSamples := s.calibrationSamples ++
                    [computeMagnitude rsqrt cfg s.baselineMagnitude g
                      (readAxes ev.acceleration)
                      (gravityUpdate cfg g (readAxes ev.acceleration) s)] }
              rw [hp.2.1]
            · exact le_refl _
          · rw [if_neg hc]
            rw [detectBounce_spec]
            by_cases hfire : cfg.debounceTime ≤ now - s.lastBounceTime
                ∧ cfg.sensitivity < qabs (computeMagnitude rsqrt cfg
                  s.baselineMagnitude g (readAxes ev.acceleration)
                  (gravityUpdate cfg g (readAxes ev.acceleration) s) -
                    s.baselineMagnitude)
            · rw [if_pos hfire]
              have h0 : (0:ℤ) ≤ now - s.lastBounceTime := le_trans hdb hfire.1
              simp only [if_pos rfl, if_pos trivial]
              omega
            · rw [if_neg hfire]
              exact le_refl _
      · exact le_refl _

/-- C9 witness: the default configuration (debounce 300 ms) with a
stopDetection operation at the constructor state. -/
theorem counter_invariants_witness :
    (0:ℤ) ≤ defaultConfig.debounceTime
    ∧ ((step (fun q => q) defaultConfig Op.startDetection initialState).1.bounceCount = 0
      ∧ (Op.stopDetection ≠ Op.startDetection →
          (step (fun q => q) defaultConfig Op.stopDetection initialState).1.bounceCount =
            initialState.bounceCount +
              ((step (fun q => q) defaultConfig Op.stopDetection
                initialState).2.filter Event.isBounce).length)
      ∧ initialState.lastBounceTime ≤
          (step (fun q => q) defaultConfig Op.stopDetection
            initialState).1.lastBounceTime) :=
  ⟨by decide,
    counter_invariants (fun q => q) defaultConfig Op.stopDetection
      initialState (by decide)⟩

theorem processAll_nil (rsqrt : ℚ → ℚ) (cfg : Config) (s : DetectorState) :
    processAll rsqrt cfg [] s = (s, []) := rfl

theorem magnitudesOf_nil : magnitudesOf [] = [] := rfl

theorem magnitudesOf_update (m : ℚ) (evs : List Event) :
    magnitudesOf (Event.magnitudeUpdate m :: evs) = m :: magnitudesOf evs := rfl

theorem magnitudesOf_complete (b : ℚ) (evs : List Event) :
    magnitudesOf (Event.calibrationComplete b :: evs) = magnitudesOf evs := rfl

theorem magnitudesOf_status (st : Status) (evs : List Event) :
    magnitudesOf (Event.statusChanged st :: evs) = magnitudesOf evs := rfl

theorem calibCompletionsOf_nil : calibCompletionsOf [] = [] := rfl

theorem calibCompletionsOf_update (m : ℚ) (evs : List Event) :
    calibCompletionsOf (Event.magnitudeUpdate m :: evs) =
      calibCompletionsOf evs := rfl

theorem calibCompletionsOf_complete (b : ℚ) (evs : List Event) :
    calibCompletionsOf (Event.calibrationComplete b :: evs) =
      b :: calibCompletionsOf evs := rfl

theorem calibCompletionsOf_status (st : Status) (evs : List Event) :
    calibCompletionsOf (Event.statusChanged st :: evs) =
      calibCompletionsOf evs := rfl

theorem filterDA_update (m : ℚ) (evs : List Event) :
    (Event.magnitudeUpdate m :: evs).filter Event.isDetectionOrAudio =
      evs.filter Event.isDetectionOrAudio := rfl

theorem filterDA_complete (b : ℚ) (evs : List Event) :
    (Event.calibrationComplete b :: evs).filter Event.isDetectionOrAudio =
      evs.filter Event.isDetectionOrAudio := rfl

theorem filterDA_status (st : Status) (evs : List Event) :
    (Event.statusChanged st :: evs).filter Event.isDetectionOrAudio =
      evs.filter Event.isDetectionOrAudio := rfl

theorem calibration_run (rsqrt : ℚ → ℚ) (cfg : Config) :
    ∀ (l : List (ℤ × MotionEvent × ℚ)) (s : DetectorState),
      s.isCalibrating = true →
      s.calibrationSamples.length + l.length = 50 →
      l ≠ [] →
      (∀ p ∈ l, (readAxes p.2.1.accelerationIncludingGravity).isSome = true) →
      (processAll rsqrt cfg l s).1.isCalibrating = false
      ∧ (magnitudesOf (processAll rsqrt cfg l s).2).length = l.length
      ∧ (processAll rsqrt cfg l s).1.baselineMagnitude =
          (s.calibrationSamples ++
            magnitudesOf (processAll rsqrt cfg l s).2).sum / 50
      ∧ calibCompletionsOf (processAll rsqrt cfg l s).2 =
          [(processAll rsqrt cfg l s).1.baselineMagnitude]
      ∧ (processAll rsqrt cfg l s).2.filter Event.isDetectionOrAudio = [] := by
  intro l
  induction l with
  | nil =>
    intro s hc hlen hne hproc
    exact absurd rfl hne
  | cons p rest ih =>
    intro s hc hlen hne hproc
    obtain ⟨now, ev, gain⟩ := p
    obtain ⟨g, hg⟩ := Option.isSome_iff_exists.mp
      (hproc (now, ev, gain) (List.mem_cons_self _ _))
    have hprest : ∀ q ∈ rest,
        (readAxes q.2.1.accelerationIncludingGravity).isSome = true :=
      fun q hq => hproc q (List.mem_cons_of_mem _ hq)
    simp only [List.length_cons] at hlen
    unfold processAll
    unfold handleMotion
    rw [hg]
    dsimp only
    rw [if_pos hc]
    generalize gravityUpdate cfg g (readAxes ev.acceleration) s = G
    generalize computeMagnitude rsqrt cfg s.baselineMagnitude g
      (readAxes ev.acceleration) G = m
    rcases eq_or_ne rest [] with hrest | hrest
    · subst hrest
      simp only [List.length_nil] at hlen
      have h50 : (s.calibrationSamples ++ [m]).length = 50 := by
        rw [List.length_append]
        simp only [List.length_singleton]
        omega
      rw [if_pos (le_of_eq h50.symm)]
      unfold finishCalibration
      dsimp only
      rw [if_pos (by rw [h50]; norm_num)]
      simp only [processAll_nil, List.append_nil]
      refine ⟨trivial, ?_, ?_, ?_, ?_⟩
      · rw [magnitudesOf_update, magnitudesOf_complete, magnitudesOf_status,
          magnitudesOf_nil]
        rfl
      · rw [magnitudesOf_update, magnitudesOf_complete, magnitudesOf_status,
          magnitudesOf_nil, h50]
        norm_num
      · rw [calibCompletionsOf_update, calibCompletionsOf_complete,
          calibCompletionsOf_status, calibCompletionsOf_nil]
      · rw [filterDA_update, filterDA_complete, filterDA_status]
        rfl
    · have hpos : 0 < rest.length := List.length_pos.mpr hrest
      have hlt : ¬ 50 ≤ (s.calibrationSamples ++ [m]).length := by
        rw [List.length_append]
        simp only [List.length_singleton]
        omega
      rw [if_neg hlt]
      have ihs := ih
        { s with
          gravityX := G.x, gravityY := G.y, gravityZ := G.z,
          calibrationSamples := s.calibrationSamples ++ [m] }
        hc
        (by
          dsimp only
          rw [List.length_append]
          simp only [List.length_singleton]
          omega)
        hrest hprest
      dsimp only at ihs
      dsimp only
      simp only [List.singleton_append]
      refine ⟨ihs.1, ?_, ?_, ?_, ?_⟩
      · rw [magnitudesOf_update, List.length_cons, ihs.2.1, List.length_cons]
      · rw [magnitudesOf_update, ihs.2.2.1, List.append_assoc,
          List.singleton_append]
      · rw [calibCompletionsOf_update]
        exact ihs.2.2.2.1
      · rw [filterDA_update]
        exact ihs.2.2.2.2

/-- C2.  If exactly 50 samples are processed while in the Calibrating
state (starting with an empty calibrationSamples list), the analyzer
automatically leaves Calibrating, sets baselineMagnitude to the
arithmetic mean of the 50 magnitude values computed for those samples by
the same magnitude-computation path as detection (the values carried by
the magnitude-observation signals), and emits exactly one
calibration-complete signal, carrying the new baseline.  No detection or
audio processing occurs on calibration samples (no bounce, vibration,
tone or audio-target signal is emitted).  In particular, when the 50
magnitudes sum to 455, that is average 9.1, the new baseline is 9.1. -/
theorem calibration_fifty_samples (rsqrt : ℚ → ℚ) (cfg : Config)
    (l : List (ℤ × MotionEvent × ℚ)) (s : DetectorState)
    (hc : s.isCalibrating = true)
    (hempty : s.calibrationSamples = [])
    (hlen : l.length = 50)
    (hproc : ∀ p ∈ l,
      (readAxes p.2.1.accelerationIncludingGravity).isSome = true) :
    (processAll rsqrt cfg l s).1.isCalibrating = false
    ∧ (magnitudesOf (processAll rsqrt cfg l s).2).length = 50
    ∧ (processAll rsqrt cfg l s).1.baselineMagnitude =
        (magnitudesOf (processAll rsqrt cfg l s).2).sum / 50
    ∧ calibCompletionsOf (processAll rsqrt cfg l s).2 =
        [(processAll rsqrt cfg l s).1.baselineMagnitude]
    ∧ (processAll rsqrt cfg l s).2.filter Event.isDetectionOrAudio = []
    ∧ ((magnitudesOf (processAll rsqrt cfg l s).2).sum = 455 →
        (processAll rsqrt cfg l s).1.baselineMagnitude = 91/10) := by
  have hne : l ≠ [] := by
    intro h0
    rw [h0] at hlen
    simp at hlen
  have h := calibration_run rsqrt cfg l s hc
    (by rw [hempty, hlen]; rfl) hne hproc
  rw [hempty, List.nil_append] at h
  have hbase := h.2.2.1
  refine ⟨h.1, by rw [h.2.1, hlen], hbase, h.2.2.2.1, h.2.2.2.2, ?_⟩
  intro hsum
  rw [hbase, hsum]
  norm_num

/-- Motion event used by the C2 witness (reading present, all axes
non-null). -/
def calibEv : MotionEvent := ⟨some ⟨some 0, some 0, some 1⟩, none⟩

/-- Fifty timestamped copies of calibEv, 20 ms apart. -/
def calibList : List (ℤ × MotionEvent × ℚ) :=
  (List.range 50).map fun i => ((20 * (i : ℤ)), calibEv, 0)

/-- A calibrating state with no samples collected yet. -/
def calibState : DetectorState := { initialState with isCalibrating := true }

/-- C2 witness: running the 50 concrete calibration samples. -/
theorem calibration_fifty_samples_witness :
    (calibState.isCalibrating = true
      ∧ calibState.calibrationSamples = []
      ∧ calibList.length = 50
      ∧ (∀ p ∈ calibList,
          (readAxes p.2.1.accelerationIncludingGravity).isSome = true))
    ∧ ((processAll (fun q => q) defaultConfig calibList calibState).1.isCalibrating = false
      ∧ (magnitudesOf (processAll (fun q => q) defaultConfig calibList
          calibState).2).length = 50
      ∧ (processAll (fun q => q) defaultConfig calibList calibState).1.baselineMagnitude =
          (magnitudesOf (processAll (fun q => q) defaultConfig calibList
            calibState).2).sum / 50
      ∧ calibCompletionsOf (processAll (fun q => q) defaultConfig calibList
          calibState).2 =
          [(processAll (fun q => q) defaultConfig calibList calibState).1.baselineMagnitude]
      ∧ (processAll (fun q => q) defaultConfig calibList
          calibState).2.filter Event.isDetectionOrAudio = []
      ∧ ((magnitudesOf (processAll (fun q => q) defaultConfig calibList
          calibState).2).sum = 455 →
        (processAll (fun q => q) defaultConfig calibList
          calibState).1.baselineMagnitude = 91/10)) := by
  have hlen : calibList.length = 50 := by decide
  have hproc : ∀ p ∈ calibList,
      (readAxes p.2.1.accelerationIncludingGravity).isSome = true := by decide
  exact ⟨⟨rfl, rfl, hlen, hproc⟩,
    calibration_fifty_samples (fun q => q) defaultConfig calibList calibState
      rfl rfl hlen hproc⟩
